import Mathlib

/-!
Verification of the Vapi call-monitor dashboard against its specification.

The development shallowly embeds the parts of the TypeScript source that the
claims are about:

* the API client methods of `src/lib/vapi-service.ts`
  (`updateCredential`, `getPhoneNumbers`, `getAssistants`, `getCredentials`);
* the realtime-message normalizer `normalizeWsData` and the capped message
  log `addWsMessage` of the call-monitor component;
* the polling fallback (`startPollingCall` and the body of its interval
  callback) and the WebSocket retry logic of the same component;
* the webhook ring buffer `pushWebhookEvent` of
  `src/lib/vapi-webhook-store.ts`.

Platform primitives that the browser supplies (fetch, JSON.parse,
TextDecoder, URL.createObjectURL, Blob methods) are not part of the
repository; they are passed in as explicit parameters, with a fallible
result type wherever the platform operation can throw or reject.  Settled
promise outcomes are modelled as `Except String`: `Except.ok` is a
fulfilled promise, `Except.error` a rejected one carrying the message.
-/

/-- JSON values, the shape of the data the dashboard exchanges with the
platform.  Numbers are modelled as integers; no claim depends on
fractional numerics. -/
inductive Js where
  | null
  | bool (b : Bool)
  | num (n : Int)
  | str (s : String)
  | arr (xs : List Js)
  | obj (fields : List (String × Js))

/-- Settled outcome of a JavaScript promise: `.ok` is fulfilled, `.error`
is rejected with the given message. -/
abbrev JsPromise (α : Type) := Except String α

/-- JavaScript truthiness of a JSON value: `null`, `false`, `0` and the
empty string are falsy, everything else is truthy. -/
def jsTruthy : Js → Bool
  | .null => false
  | .bool b => b
  | .num n => n != 0
  | .str s => s != ""
  | .arr _ => true
  | .obj _ => true

/-- JavaScript truthiness of an optional string field (absent and empty
strings are falsy). -/
def truthyStr : Option String → Bool
  | none => false
  | some s => s != ""

/-- Property lookup `j[k]` on a JSON value: `none` models `undefined`. -/
def getProp (j : Js) (k : String) : Option Js :=
  match j with
  | .obj fields => (fields.find? (fun f => f.1 == k)).map (fun f => f.2)
  | _ => none

/- ===== API client (src/lib/vapi-service.ts) ===== -/

/-- The message of the error thrown by `updateCredential`'s catch clause
in the source. -/
def unsupportedUpdateMessage : String :=
  "Credential updates are not supported by VAPI API. Please delete and recreate the credential instead."

/-- Embedding of `VapiService.updateCredential(credentialId, credentialData)`
relative to `patchOutcome`, the settled outcome of the PATCH request the
method issues.

The source body is

  console.warn(...);
  try \x7b
    return this.request(`/credential/` + credentialId, \x7b method: PATCH, body: JSON.stringify(credentialData) \x7d);
  \x7d catch (error) \x7b
    console.error(...);
    throw new Error(unsupportedUpdateMessage);
  \x7d

The `return` is not awaited: the try block completes as soon as
`this.request` has produced its promise, and the async method settles to
that promise's outcome.  A later rejection of the PATCH therefore settles
`updateCredential`'s result directly and never enters the catch clause.
The catch clause would run only on a synchronous throw inside the try
block; `JSON.stringify` on a JSON value (our `Js` type has no cycles)
cannot throw, so no synchronous throw is possible and the method's
outcome is exactly the PATCH outcome. -/
def updateCredential (credentialId : String) (credentialData : Js)
    (patchOutcome : JsPromise Js) : JsPromise Js :=
  patchOutcome

/-- What the specification says `updateCredential` does: on PATCH failure,
signal the distinct unsupported-operation error.  Stated from the spec's
words, for comparison with the source embedding `updateCredential`. -/
def updateCredentialSpec (credentialId : String) (credentialData : Js)
    (patchOutcome : JsPromise Js) : JsPromise Js :=
  match patchOutcome with
  | .ok v => .ok v
  | .error _ => .error unsupportedUpdateMessage

/-- Embedding of `VapiService.getPhoneNumbers()` relative to the settled
outcome of `this.request('/phone-number')`: the source returns the
response if it is an array and the empty array otherwise, and the catch
clause returns the empty array on a rejected request. -/
def getPhoneNumbers (resp : JsPromise Js) : List Js :=
  match resp with
  | .ok (.arr xs) => xs
  | .ok _ => []
  | .error _ => []

/-- Embedding of `VapiService.getAssistants()`; same shape as
`getPhoneNumbers` against `this.request('/assistant')`. -/
def getAssistants (resp : JsPromise Js) : List Js :=
  match resp with
  | .ok (.arr xs) => xs
  | .ok _ => []
  | .error _ => []

/-- Embedding of `VapiService.getCredentials()`; same shape as
`getPhoneNumbers` against `this.request('/credential')`. -/
def getCredentials (resp : JsPromise Js) : List Js :=
  match resp with
  | .ok (.arr xs) => xs
  | .ok _ => []
  | .error _ => []

/- ===== Event normalizer (normalizeWsData in the call-monitor component) ===== -/

/-- Shapes an incoming WebSocket `event.data` can take, mirroring the
branches of `normalizeWsData`: a string, a `Blob` (its byte contents), an
`ArrayBuffer` (its byte contents), an already-structured object, or any
other value (carried as its `String(data)` coercion). -/
inductive WsData where
  | str (s : String)
  | blob (bytes : List Nat)
  | buffer (bytes : List Nat)
  | obj (o : Js)
  | other (coerced : String)

/-- Result record of `normalizeWsData`:
`\x7b parsed, isJson, raw, isBinary?, url?, size? \x7d`. -/
structure NormResult where
  parsed : Js
  isJson : Bool
  raw : String
  isBinary : Bool := false
  url : Option String := none
  size : Option Nat := none

/-- The `\x7b binary: true \x7d` object the normalizer stores as `parsed`
for binary payloads. -/
def binaryMarker : Js := .obj [("binary", .bool true)]

/-- Browser-supplied primitives used by `normalizeWsData`.  `jsonParse`
returns `none` where `JSON.parse` would throw.  `blobText` and
`blobArrayBuffer` are the `Blob` read methods (promises that can reject).
`jsonStringify` can throw in JavaScript (e.g. on exotic objects), so it
stays fallible even though plain JSON values always stringify. -/
structure JsEnv where
  jsonParse : String → Option Js
  utf8Decode : List Nat → String
  createObjectURL : List Nat → String
  blobText : List Nat → JsPromise String
  blobArrayBuffer : List Nat → JsPromise (List Nat)
  jsonStringify : Js → JsPromise String

/-- Count of printable bytes in the sampled prefix: the source loops over
`i < Math.min(512, bytes.length)` and counts bytes that are tab, LF, CR,
or in the range 32..126. -/
def printableCount (bytes : List Nat) : Nat :=
  ((bytes.take 512).filter fun b =>
    b == 9 || b == 10 || b == 13 || (32 ≤ b && b ≤ 126)).length

/-- Denominator of the printable ratio: `Math.min(512, bytes.length || 1)`
in the source, so an empty buffer divides by 1. -/
def printableDenom (len : Nat) : Nat :=
  if len = 0 then 1 else min 512 len

/-- The body of `normalizeWsData` (everything inside its outer `try`).
`Except.error` marks an internal step throwing or rejecting, which the
outer catch will turn into the unreadable-binary fallback.

The source compares `printable / Math.min(512, bytes.length || 1) > 0.6`
in floating point.  For numerators and denominators bounded by 512 the
double-precision comparison agrees exactly with the rational comparison
`5 * printable > 3 * denom`: the two sides differ by at least `1/(5*512)`
whenever they differ, far above double rounding error, and at exact
equality (ratio `3/5`) both comparisons are false.  The embedding uses
the exact rational form. -/
def normalizeWsDataBody (env : JsEnv) (data : WsData) : Except String NormResult :=
  match data with
  | .str s =>
      match env.jsonParse s with
      | some v => .ok { parsed := v, isJson := true, raw := s }
      | none => .ok { parsed := .str s, isJson := false, raw := s }
  | .blob bytes => do
      let text ← env.blobText (bytes.take 256)
      match env.jsonParse text with
      | some v => .ok { parsed := v, isJson := true, raw := text }
      | none => do
          let full ← env.blobArrayBuffer bytes
          .ok { parsed := binaryMarker, isJson := false, raw := "",
                isBinary := true, url := some (env.createObjectURL full),
                size := some full.length }
  | .buffer bytes =>
      if 5 * printableCount bytes > 3 * printableDenom bytes.length then
        let text := env.utf8Decode bytes
        match env.jsonParse text with
        | some v => .ok { parsed := v, isJson := true, raw := text }
        | none => .ok { parsed := .str text, isJson := false, raw := text }
      else
        .ok { parsed := binaryMarker, isJson := false, raw := "",
              isBinary := true, url := some (env.createObjectURL bytes),
              size := some bytes.length }
  | .obj o => do
      let s ← env.jsonStringify o
      .ok { parsed := o, isJson := true, raw := s }
  | .other coerced =>
      .ok { parsed := .str coerced, isJson := false, raw := coerced }

/-- The record the outer catch of `normalizeWsData` returns when any
internal step throws or rejects. -/
def unreadableFallback : NormResult :=
  { parsed := .str "<unreadable binary>", isJson := false, raw := "" }

/-- Embedding of `normalizeWsData`: the body wrapped in the outer
try/catch.  Total by construction, exactly as the source function never
lets an exception escape. -/
def normalizeWsData (env : JsEnv) (data : WsData) : NormResult :=
  match normalizeWsDataBody env data with
  | .ok r => r
  | .error _ => unreadableFallback

/- ===== Capped realtime-message log (addWsMessage) ===== -/

/-- One entry of the realtime message log (`WebSocketMessage` in the
source): a kind tag, a payload, a timestamp and a source tag
(`listen` or `poll`). -/
structure WsMessage where
  kind : String
  data : Js
  timestamp : String
  source : String

/-- Last `n` elements of a list, in order: the translation of
`Array.prototype.slice(-n)`. -/
def takeLast (n : Nat) (l : List α) : List α :=
  (l.reverse.take n).reverse

/-- Embedding of the state update performed by `addWsMessage`:
`prev => [...prev, message].slice(-100)`. -/
def addWsMessage (log : List WsMessage) (m : WsMessage) : List WsMessage :=
  takeLast 100 (log ++ [m])

/- ===== Webhook ring buffer (src/lib/vapi-webhook-store.ts) ===== -/

/-- A stored webhook event, mirroring the `WebhookEvent` type of the
store module.  `receivedAt` is the ISO timestamp string. -/
structure WebhookEvent where
  id : String
  receivedAt : String
  payload : Js
  contentType : Option String
  size : Option Nat
  verified : Option Bool
  eventType : Option Js

/-- The store capacity `MAX_EVENTS = 200`. -/
def MAX_EVENTS : Nat := 200

/-- Caller-supplied fields of `pushWebhookEvent`. -/
structure PushInput where
  payload : Js
  contentType : Option String := none
  size : Option Nat := none
  verified : Option Bool := none

/-- First truthy property among candidates, for the source expression
`payload.type || payload.event || payload.eventType`. -/
def truthyProp (payload : Js) (k : String) : Option Js :=
  match getProp payload k with
  | some v => if jsTruthy v then some v else none
  | none => none

/-- The `eventType` convenience field:
`(payload && (payload.type || payload.event || payload.eventType)) || undefined`. -/
def extractEventType (payload : Js) : Option Js :=
  if jsTruthy payload then
    match truthyProp payload "type" with
    | some v => some v
    | none =>
      match truthyProp payload "event" with
      | some v => some v
      | none => truthyProp payload "eventType"
  else none

/-- Construction of the stored event record; `id` (random) and
`receivedAt` (current time) come from the environment and are passed in. -/
def mkWebhookEvent (id receivedAt : String) (inp : PushInput) : WebhookEvent :=
  { id := id, receivedAt := receivedAt, payload := inp.payload,
    contentType := inp.contentType, size := inp.size,
    verified := inp.verified, eventType := extractEventType inp.payload }

/-- The store mutation of `pushWebhookEvent`:
`store.unshift(evt); if (store.length > MAX_EVENTS) store.pop();`. -/
def pushCore (store : List WebhookEvent) (evt : WebhookEvent) : List WebhookEvent :=
  let s := evt :: store
  if s.length > MAX_EVENTS then s.dropLast else s

/-- Embedding of `pushWebhookEvent`: builds the event record, pushes it to
the front of the store, evicts the back element past capacity, and
returns the new store together with the event (the source returns the
event; the store is module state, threaded here explicitly). -/
def pushWebhookEvent (id receivedAt : String) (inp : PushInput)
    (store : List WebhookEvent) : List WebhookEvent × WebhookEvent :=
  let evt := mkWebhookEvent id receivedAt inp
  (pushCore store evt, evt)

/- ===== Fallback poller (startPollingCall / stopPollingCall) ===== -/

/-- Monitor endpoint URLs of a call. -/
structure CallMonitor where
  listenUrl : Option String
  controlUrl : Option String

/-- The slice of a call object the poller inspects. -/
structure Call where
  id : String
  status : Option String
  monitor : Option CallMonitor

/-- Primitive effects the polling tick and the connect/disconnect helpers
perform, in program order.  `openChannel` is the composite
`connectWebSockets(listenUrl, controlUrl)` call (it closes any previous
channel and opens a new listen socket when `listenUrl` is truthy);
`stopPoller` is `stopPollingCall()` (clearInterval). -/
inductive PollAction where
  | appendMsg (kind : String) (source : String)
  | setCurrentCall
  | openChannel (listenUrl : Option String) (controlUrl : Option String)
  | stopPoller

/-- The fixed polling period passed to `window.setInterval`. -/
def POLL_INTERVAL_MS : Nat := 3000

/-- Terminal call statuses: `['ended', 'completed', 'failed']`. -/
def terminalStatuses : List String := ["ended", "completed", "failed"]

/-- The monitor-discovery block of the tick callback: when
`updated?.monitor?.listenUrl || updated?.monitor?.controlUrl` is truthy it
logs a connection message, calls `connectWebSockets`, and then calls
`stopPollingCall` — in that order. -/
def monitorActions (updated : Call) : List PollAction :=
  match updated.monitor with
  | some m =>
      if truthyStr m.listenUrl || truthyStr m.controlUrl then
        [.appendMsg "connection" "poll",
         .openChannel m.listenUrl m.controlUrl,
         .stopPoller]
      else []
  | none => []

/-- The terminal-status block of the tick callback: when the fetched
status is in `terminalStatuses` it logs a poll message and stops polling. -/
def terminalActions (updated : Call) : List PollAction :=
  match updated.status with
  | some s =>
      if s ∈ terminalStatuses then [.appendMsg "poll" "poll", .stopPoller]
      else []
  | none => []

/-- One tick of the interval callback installed by `startPollingCall`,
relative to `fetched`, the settled outcome of
`vapiService.getCall(callId)`: on success it logs the poll result,
updates the current call, then runs the monitor-discovery and
terminal-status blocks; on a rejected fetch the catch clause logs an
error message and nothing else. -/
def pollTick (callId : String) (fetched : JsPromise Call) : List PollAction :=
  match fetched with
  | .error _ => [.appendMsg "error" "poll"]
  | .ok updated =>
      [.appendMsg "poll" "poll", .setCurrentCall]
        ++ monitorActions updated ++ terminalActions updated

/-- What `startPollingCall(callId)` itself does: stop any previous poller,
log a starting message, and install the tick on a 3000 ms interval. -/
structure PollingSetup where
  intervalMs : Nat
  initialActions : List PollAction

/-- Embedding of `startPollingCall`. -/
def startPollingCall (callId : String) : PollingSetup :=
  { intervalMs := POLL_INTERVAL_MS,
    initialActions := [.stopPoller, .appendMsg "poll" "poll"] }

/-- Which of the two live-update mechanisms are active for the session. -/
structure SessionState where
  pollerActive : Bool
  channelActive : Bool

/-- Effect of one primitive action on the session state.  `openChannel`
first closes any existing channel (`disconnectWebSockets`) and then opens
a listen socket exactly when the listen URL is truthy; `stopPoller`
clears the interval. -/
def applyAction (st : SessionState) (a : PollAction) : SessionState :=
  match a with
  | .appendMsg _ _ => st
  | .setCurrentCall => st
  | .openChannel l _ => { st with channelActive := truthyStr l }
  | .stopPoller => { st with pollerActive := false }

/-- Scans an action list and checks that every `openChannel` is preceded
by a `stopPoller` (the order the specification asks for); `seen` records
whether a `stopPoller` has already occurred. -/
def pollerStoppedBeforeOpen (seen : Bool) : List PollAction → Bool
  | [] => true
  | a :: rest =>
      match a with
      | .stopPoller => pollerStoppedBeforeOpen true rest
      | .openChannel _ _ => seen && pollerStoppedBeforeOpen seen rest
      | _ => pollerStoppedBeforeOpen seen rest

/-- Recognizer for the `stopPoller` action. -/
def isStopPoller : PollAction → Bool
  | .stopPoller => true
  | _ => false

/-- Checks that every `openChannel` in the list is followed, later in the
same list, by a `stopPoller`. -/
def openFollowedByStop : List PollAction → Bool
  | [] => true
  | a :: rest =>
      match a with
      | .openChannel _ _ => rest.any isStopPoller && openFollowedByStop rest
      | _ => openFollowedByStop rest

/- ===== WebSocket retry logic (connectWebSocket / ws.onclose) ===== -/

/-- Retry state of the listen WebSocket.  `snap` is the value of
`wsConnection.retryCount` that the handler closures can see: the
`onclose` handler reads the `wsConnection` variable of the render in
which `connectWebSocket` was called, and the retry invokes that same
render's `connectWebSocket`, so every handler along a retry chain reads
the same captured snapshot.  `stateRetryCount` is the live React state
value (updated through `setWsConnection`). -/
structure RetryModel where
  snap : Nat
  stateRetryCount : Nat

/-- The unexpected-close branch of `ws.onclose` followed, if a retry was
scheduled, by the scheduled timeout body.  The source checks
`wsConnection.retryCount < 3` and computes
`Math.pow(2, wsConnection.retryCount) * 1000` from the captured snapshot;
the timeout then increments the state counter and calls
`connectWebSocket`, which resets the state counter to 0
(`retryCount: 0` in its `setWsConnection` update) and installs handlers
that capture the same render snapshot.  Returns the scheduled delay in
milliseconds and the model after the reconnect, or `none` when no retry
is scheduled. -/
def oncloseUnexpected (m : RetryModel) : Option (Nat × RetryModel) :=
  if m.snap < 3 then
    some (2 ^ m.snap * 1000, { snap := m.snap, stateRetryCount := 0 })
  else
    none

/-- Delays scheduled over a run of `n` consecutive unexpected closes;
the run ends early if some close schedules no retry. -/
def closeDelays : Nat → RetryModel → List Nat
  | 0, _ => []
  | n + 1, m =>
      match oncloseUnexpected m with
      | none => []
      | some (d, m2) => d :: closeDelays n m2

/- ===== Concrete test data ===== -/

/-- A concrete browser environment for evaluating the normalizer on
closed inputs: its JSON parser recognizes only the literal `null`, its
UTF-8 decoder maps byte values to code points, and object URLs are a
fixed locator string.  Only used in closed witness statements; the
normalizer theorems quantify over all environments. -/
def envTest : JsEnv :=
  { jsonParse := fun s => if s = "null" then some .null else none,
    utf8Decode := fun bytes => String.mk (bytes.map Char.ofNat),
    createObjectURL := fun _ => "blob:demo",
    blobText := fun bytes => .ok (String.mk (bytes.map Char.ofNat)),
    blobArrayBuffer := fun bytes => .ok bytes,
    jsonStringify := fun _ => .ok "" }

/-- A polled call carrying monitor URLs, as returned by `GET /call/:id`
once the platform exposes the realtime endpoints. -/
def demoMonitorCall : Call :=
  { id := "call-1",
    status := some "in-progress",
    monitor := some { listenUrl := some "wss://listen.example",
                      controlUrl := some "wss://control.example" } }

/-- A polled call that has reached a terminal status and carries no
monitor endpoints. -/
def demoEndedCall : Call :=
  { id := "call-2", status := some "ended", monitor := none }

/- ===== Theorems ===== -/

/-- Claim C1 (code bug evidence): when the PATCH request rejects, the
rejection settles `updateCredential` unchanged, because the source
returns the request promise from the try block without awaiting it, so
the catch clause that would throw the distinct unsupported-operation
error never runs.  At the concrete failing input the caller observes
the underlying HTTP error, while the specified behavior
(`updateCredentialSpec`) yields the distinct error, and the two error
messages differ. -/
theorem updateCredential_rejection_passthrough :
    updateCredential "cred-1" Js.null (Except.error "HTTP 404: Not Found")
      = Except.error "HTTP 404: Not Found"
    ∧ updateCredentialSpec "cred-1" Js.null (Except.error "HTTP 404: Not Found")
      = Except.error unsupportedUpdateMessage
    ∧ "HTTP 404: Not Found" ≠ unsupportedUpdateMessage :=
  ⟨rfl, rfl, by decide⟩

/-- Claim C9: every list endpoint (`getPhoneNumbers`, `getAssistants`,
`getCredentials`) returns the empty list whenever the underlying request
rejected or the decoded response is not an array. -/
theorem list_endpoints_default_empty (resp : JsPromise Js)
    (h : ∀ xs, resp ≠ Except.ok (Js.arr xs)) :
    getPhoneNumbers resp = [] ∧ getAssistants resp = [] ∧ getCredentials resp = [] := by
  cases resp with
  | error e => exact ⟨rfl, rfl, rfl⟩
  | ok v =>
    cases v with
    | arr xs => exact absurd rfl (h xs)
    | null => exact ⟨rfl, rfl, rfl⟩
    | bool b => exact ⟨rfl, rfl, rfl⟩
    | num n => exact ⟨rfl, rfl, rfl⟩
    | str s => exact ⟨rfl, rfl, rfl⟩
    | obj fields => exact ⟨rfl, rfl, rfl⟩

/-- Witness for C9 at a rejected request. -/
theorem list_endpoints_default_empty_witness :
    getPhoneNumbers (Except.error "HTTP 500: server error") = []
    ∧ getAssistants (Except.error "HTTP 500: server error") = []
    ∧ getCredentials (Except.error "HTTP 500: server error") = [] :=
  list_endpoints_default_empty (Except.error "HTTP 500: server error")
    (fun xs h => Except.noConfusion h)

/-- Claim C3: for every string input, if the platform JSON parser accepts
it the normalizer returns `isJson := true` with the parsed value and the
input as `raw`; if the parser rejects it the normalizer returns
`isJson := false` with the raw text passed through unchanged. -/
theorem normalizeWsData_string_branch (env : JsEnv) (s : String) :
    (∀ v, env.jsonParse s = some v →
      normalizeWsData env (WsData.str s)
        = { parsed := v, isJson := true, raw := s })
    ∧ (env.jsonParse s = none →
      normalizeWsData env (WsData.str s)
        = { parsed := Js.str s, isJson := false, raw := s }) := by
  constructor
  · intro v hv
    simp [normalizeWsData, normalizeWsDataBody, hv]
  · intro hn
    simp [normalizeWsData, normalizeWsDataBody, hn]

/-- Witness for C3: a parsed and an unparsed concrete string. -/
theorem normalizeWsData_string_branch_witness :
    normalizeWsData envTest (WsData.str "null")
      = { parsed := Js.null, isJson := true, raw := "null" }
    ∧ normalizeWsData envTest (WsData.str "not json")
      = { parsed := Js.str "not json", isJson := false, raw := "not json" } :=
  ⟨(normalizeWsData_string_branch envTest "null").1 Js.null rfl,
   (normalizeWsData_string_branch envTest "not json").2 rfl⟩

/-- Claim C10: the normalizer is total.  For every environment and every
input shape its result is either the successful body result or, when an
internal step throws or rejects, exactly the unreadable-binary fallback
record; in both cases the caller gets a record with a parsed value, an
`isJson` flag and a raw string, and no exception escapes. -/
theorem normalizeWsData_total_fallback (env : JsEnv) (d : WsData) :
    normalizeWsDataBody env d = Except.ok (normalizeWsData env d)
    ∨ (∃ e, normalizeWsDataBody env d = Except.error e
        ∧ normalizeWsData env d = unreadableFallback) := by
  cases hb : normalizeWsDataBody env d with
  | ok r => exact Or.inl (by simp [normalizeWsData, hb])
  | error e => exact Or.inr ⟨e, rfl, by simp [normalizeWsData, hb]⟩

/-- Claim C4 counterexample: a five-byte buffer with exactly three
printable bytes is at least 60 percent printable over its sampled
prefix (the claim's hypothesis), yet the normalizer classifies it as
binary, because the source requires the ratio to strictly exceed 0.6. -/
theorem normalizeWsData_sixty_percent_boundary :
    5 * printableCount [65, 65, 65, 0, 0]
        ≥ 3 * printableDenom (List.length [65, 65, 65, 0, 0])
    ∧ (normalizeWsData envTest (WsData.buffer [65, 65, 65, 0, 0])).isBinary = true := by
  decide

/-- Claim C4 as amended: strictly more than 60 percent printable bytes in
the sampled prefix makes the normalizer decode the buffer as UTF-8 text
and attempt a JSON parse (so the result is textual, never binary, with
`isJson` reflecting the parse outcome); otherwise the buffer is
classified as binary with the marker object, its byte size, and an
object-URL locator. -/
theorem normalizeWsData_buffer_heuristic (env : JsEnv) (b : List Nat) :
    (5 * printableCount b > 3 * printableDenom b.length →
      (normalizeWsData env (WsData.buffer b)).raw = env.utf8Decode b
      ∧ (normalizeWsData env (WsData.buffer b)).isJson
          = (env.jsonParse (env.utf8Decode b)).isSome
      ∧ (normalizeWsData env (WsData.buffer b)).isBinary = false)
    ∧ (¬ 5 * printableCount b > 3 * printableDenom b.length →
      normalizeWsData env (WsData.buffer b)
        = { parsed := binaryMarker, isJson := false, raw := "",
            isBinary := true, url := some (env.createObjectURL b),
            size := some b.length }) := by
  constructor
  · intro h
    cases hp : env.jsonParse (env.utf8Decode b) with
    | some v => simp [normalizeWsData, normalizeWsDataBody, h, hp]
    | none => simp [normalizeWsData, normalizeWsDataBody, h, hp]
  · intro h
    simp [normalizeWsData, normalizeWsDataBody, h]

/-- Witness for the amended C4: a fully printable two-byte buffer takes
the text path, an all-zero buffer is classified as binary. -/
theorem normalizeWsData_buffer_heuristic_witness :
    (normalizeWsData envTest (WsData.buffer [104, 105])).isBinary = false
    ∧ normalizeWsData envTest (WsData.buffer [0, 0, 0])
        = { parsed := binaryMarker, isJson := false, raw := "",
            isBinary := true, url := some "blob:demo", size := some 3 } :=
  ⟨((normalizeWsData_buffer_heuristic envTest [104, 105]).1 (by decide)).2.2,
   (normalizeWsData_buffer_heuristic envTest [0, 0, 0]).2 (by decide)⟩

/-- Helper: `takeLast` never returns more than `n` elements. -/
theorem takeLast_length_le (n : Nat) (l : List α) : (takeLast n l).length ≤ n := by
  simp [takeLast]

/-- Helper: appending one element to an already-truncated log and
truncating again is the same as truncating the full log after the
append. -/
theorem takeLast_snoc_takeLast (n : Nat) (l : List α) (x : α) :
    takeLast n (takeLast n l ++ [x]) = takeLast n (l ++ [x]) := by
  cases n with
  | zero => simp [takeLast]
  | succ m =>
    simp [takeLast, List.take_take, Nat.min_eq_left (Nat.le_succ m)]

/-- Helper: folding `addWsMessage` over arrivals, starting from a
truncated log, yields the truncation of the whole arrival history. -/
theorem foldl_addWsMessage (msgs : List WsMessage) :
    ∀ acc : List WsMessage,
      List.foldl addWsMessage (takeLast 100 acc) msgs = takeLast 100 (acc ++ msgs) := by
  induction msgs with
  | nil => intro acc; simp
  | cons m ms ih =>
    intro acc
    have h1 : addWsMessage (takeLast 100 acc) m = takeLast 100 (acc ++ [m]) := by
      simpa [addWsMessage] using takeLast_snoc_takeLast 100 acc m
    calc List.foldl addWsMessage (takeLast 100 acc) (m :: ms)
        = List.foldl addWsMessage (takeLast 100 (acc ++ [m])) ms := by
          rw [List.foldl_cons, h1]
      _ = takeLast 100 ((acc ++ [m]) ++ ms) := ih (acc ++ [m])
      _ = takeLast 100 (acc ++ m :: ms) := by simp

/-- Claim C5: for every arrival sequence, the realtime message log built
by `addWsMessage` is exactly the last 100 arrivals in arrival order — so
it never exceeds 100 entries and, when full, the oldest entry is the one
evicted. -/
theorem wsMessages_capped_fifo (msgs : List WsMessage) :
    List.foldl addWsMessage [] msgs = takeLast 100 msgs
    ∧ (List.foldl addWsMessage [] msgs).length ≤ 100 := by
  have h := foldl_addWsMessage msgs []
  simp only [takeLast, List.reverse_nil, List.take_nil, List.nil_append] at h
  refine ⟨h, ?_⟩
  rw [h]
  exact takeLast_length_le 100 msgs

/-- Helper: taking `n` from the second summand before appending does not
change the first `n` elements of the concatenation. -/
theorem take_append_take (n : Nat) (xs ys : List α) :
    (xs ++ ys.take n).take n = (xs ++ ys).take n := by
  rw [List.take_append_eq_append_take, List.take_append_eq_append_take,
      List.take_take]
  have hmin : min (n - xs.length) n = n - xs.length :=
    Nat.min_eq_left (Nat.sub_le n xs.length)
  rw [hmin]

/-- Helper: below capacity, the unshift-then-pop update is a front
insertion truncated to the capacity. -/
theorem pushCore_eq_take (store : List WebhookEvent) (evt : WebhookEvent)
    (h : store.length ≤ 200) :
    pushCore store evt = (evt :: store).take 200 := by
  by_cases hlen : store.length = 200
  · have h201 : (evt :: store).length = 201 := by simp [hlen]
    simp only [pushCore, MAX_EVENTS]
    rw [if_pos (by simp [hlen])]
    rw [List.dropLast_eq_take, h201]
  · have hlt : store.length < 200 := Nat.lt_of_le_of_ne h hlen
    simp only [pushCore, MAX_EVENTS]
    rw [if_neg (by simp; omega)]
    rw [List.take_of_length_le (by simp; omega)]

/-- Helper: folding `pushCore` over arrivals from a store below capacity
yields the newest-first history truncated to capacity. -/
theorem foldl_pushCore (evts : List WebhookEvent) :
    ∀ acc : List WebhookEvent, acc.length ≤ 200 →
      List.foldl pushCore acc evts = (evts.reverse ++ acc).take 200 := by
  induction evts with
  | nil =>
    intro acc h
    simp [List.take_of_length_le h]
  | cons e es ih =>
    intro acc h
    rw [List.foldl_cons, pushCore_eq_take acc e h]
    have hlen : ((e :: acc).take 200).length ≤ 200 := by
      simp [List.length_take]
    rw [ih _ hlen, take_append_take, List.reverse_cons, List.append_assoc]
    rfl

/-- Claim C6: for every sequence of `pushWebhookEvent` calls starting
from the empty store, the store is exactly the 200 most recent events,
newest first — so it never exceeds 200 entries, each insertion is at the
front, and on overflow exactly the oldest entry (at the back) is
evicted. -/
theorem webhookStore_capped_newest_first
    (inputs : List (String × String × PushInput)) :
    List.foldl (fun st t => (pushWebhookEvent t.1 t.2.1 t.2.2 st).1) [] inputs
      = ((inputs.map fun t => mkWebhookEvent t.1 t.2.1 t.2.2).reverse).take 200
    ∧ (List.foldl (fun st t => (pushWebhookEvent t.1 t.2.1 t.2.2 st).1) [] inputs).length
        ≤ 200 := by
  have hstep :
      List.foldl (fun st t => (pushWebhookEvent t.1 t.2.1 t.2.2 st).1) [] inputs
        = List.foldl pushCore [] (inputs.map fun t => mkWebhookEvent t.1 t.2.1 t.2.2) := by
    rw [List.foldl_map]
    rfl
  have hfold := foldl_pushCore (inputs.map fun t => mkWebhookEvent t.1 t.2.1 t.2.2)
      [] (by simp)
  rw [hstep, hfold]
  refine ⟨by simp, ?_⟩
  simp [List.length_take]

/-- Claim C2 counterexample: on the tick that discovers monitor URLs, the
source calls `connectWebSockets` and only then `stopPollingCall`, so the
poller is not cancelled before the channel is opened; after the first
four actions of the tick (up to and including the channel open) the
poller is still active while the channel is active. -/
theorem pollTick_open_precedes_stop :
    pollerStoppedBeforeOpen false (pollTick "call-1" (Except.ok demoMonitorCall)) = false
    ∧ (((pollTick "call-1" (Except.ok demoMonitorCall)).take 4).foldl applyAction
        { pollerActive := true, channelActive := false }).pollerActive = true
    ∧ (((pollTick "call-1" (Except.ok demoMonitorCall)).take 4).foldl applyAction
        { pollerActive := true, channelActive := false }).channelActive = true := by
  refine ⟨rfl, rfl, rfl⟩

/-- Claim C2 as amended: when a session is in polling mode (no channel
active), after any complete polling tick at most one of the channel and
the poller is active, and within the tick every channel open is followed
by a poller cancellation before the tick ends (open first, cancel
immediately afterwards). -/
theorem pollTick_switchover_single_active (callId : String)
    (fetched : JsPromise Call) (st : SessionState)
    (hch : st.channelActive = false) :
    (((pollTick callId fetched).foldl applyAction st).pollerActive = false
      ∨ ((pollTick callId fetched).foldl applyAction st).channelActive = false)
    ∧ openFollowedByStop (pollTick callId fetched) = true := by
  cases fetched with
  | error e =>
    exact ⟨Or.inr (by simpa [pollTick, applyAction] using hch), rfl⟩
  | ok c =>
    rcases c with ⟨cid, status, monitor⟩
    cases monitor with
    | none =>
      cases status with
      | none =>
        exact ⟨Or.inr (by simpa [pollTick, monitorActions, terminalActions,
          applyAction] using hch), rfl⟩
      | some s =>
        by_cases hs : s ∈ terminalStatuses
        · refine ⟨Or.inl ?_, ?_⟩
          · simp [pollTick, monitorActions, terminalActions, hs, applyAction]
          · simp [pollTick, monitorActions, terminalActions, hs,
              openFollowedByStop, isStopPoller]
        · refine ⟨Or.inr ?_, ?_⟩
          · simpa [pollTick, monitorActions, terminalActions, hs,
              applyAction] using hch
          · simp [pollTick, monitorActions, terminalActions, hs,
              openFollowedByStop, isStopPoller]
    | some m =>
      by_cases hm : truthyStr m.listenUrl || truthyStr m.controlUrl
      · cases status with
        | none =>
          refine ⟨Or.inl ?_, ?_⟩
          · simp [pollTick, monitorActions, terminalActions, hm, applyAction]
          · simp [pollTick, monitorActions, terminalActions, hm,
              openFollowedByStop, isStopPoller]
        | some s =>
          by_cases hs : s ∈ terminalStatuses
          · refine ⟨Or.inl ?_, ?_⟩
            · simp [pollTick, monitorActions, terminalActions, hm, hs, applyAction]
            · simp [pollTick, monitorActions, terminalActions, hm, hs,
                openFollowedByStop, isStopPoller]
          · refine ⟨Or.inl ?_, ?_⟩
            · simp [pollTick, monitorActions, terminalActions, hm, hs, applyAction]
            · simp [pollTick, monitorActions, terminalActions, hm, hs,
                openFollowedByStop, isStopPoller]
      · cases status with
        | none =>
          refine ⟨Or.inr ?_, ?_⟩
          · simpa [pollTick, monitorActions, terminalActions, hm,
              applyAction] using hch
          · simp [pollTick, monitorActions, terminalActions, hm,
              openFollowedByStop, isStopPoller]
        | some s =>
          by_cases hs : s ∈ terminalStatuses
          · refine ⟨Or.inl ?_, ?_⟩
            · simp [pollTick, monitorActions, terminalActions, hm, hs, applyAction]
            · simp [pollTick, monitorActions, terminalActions, hm, hs,
                openFollowedByStop, isStopPoller]
          · refine ⟨Or.inr ?_, ?_⟩
            · simpa [pollTick, monitorActions, terminalActions, hm, hs,
                applyAction] using hch
            · simp [pollTick, monitorActions, terminalActions, hm, hs,
                openFollowedByStop, isStopPoller]

/-- Witness for the amended C2 at the monitor-discovery tick. -/
theorem pollTick_switchover_single_active_witness :
    ((((pollTick "call-1" (Except.ok demoMonitorCall)).foldl applyAction
        { pollerActive := true, channelActive := false }).pollerActive = false)
      ∨ (((pollTick "call-1" (Except.ok demoMonitorCall)).foldl applyAction
        { pollerActive := true, channelActive := false }).channelActive = false))
    ∧ openFollowedByStop (pollTick "call-1" (Except.ok demoMonitorCall)) = true :=
  pollTick_switchover_single_active "call-1" (Except.ok demoMonitorCall)
    { pollerActive := true, channelActive := false } rfl

/-- Claim C8: polling runs on a fixed 3000 ms interval; every successful
fetch first appends a poll-tagged message; a terminal fetched status
leaves the poller stopped at the end of the tick; a rejected fetch
appends exactly one error-tagged message and leaves the poller running. -/
theorem pollTick_contract (callId s e : String) (c : Call) (st : SessionState) :
    (startPollingCall callId).intervalMs = 3000
    ∧ (pollTick callId (Except.ok c)).head? = some (PollAction.appendMsg "poll" "poll")
    ∧ (c.status = some s → s ∈ terminalStatuses →
        ((pollTick callId (Except.ok c)).foldl applyAction st).pollerActive = false)
    ∧ pollTick callId (Except.error e) = [PollAction.appendMsg "error" "poll"]
    ∧ ((pollTick callId (Except.error e)).foldl applyAction st).pollerActive
        = st.pollerActive := by
  refine ⟨rfl, rfl, ?_, rfl, rfl⟩
  intro h hs
  have hterm : terminalActions c
      = [PollAction.appendMsg "poll" "poll", PollAction.stopPoller] := by
    simp [terminalActions, h, hs]
  simp only [pollTick]
  rw [hterm, List.foldl_append]
  rfl

/-- Witness for C8 at a terminal poll response and a rejected fetch. -/
theorem pollTick_contract_witness :
    ((pollTick "call-2" (Except.ok demoEndedCall)).foldl applyAction
        { pollerActive := true, channelActive := false }).pollerActive = false
    ∧ (startPollingCall "call-2").intervalMs = 3000
    ∧ pollTick "call-2" (Except.error "network down")
        = [PollAction.appendMsg "error" "poll"] := by
  have h := pollTick_contract "call-2" "ended" "network down" demoEndedCall
    { pollerActive := true, channelActive := false }
  exact ⟨h.2.2.1 rfl (by decide), h.1, h.2.2.2.1⟩

/-- Claim C7 (code bug evidence): starting from the normal initial state
(render snapshot 0, stored retry count 0), every unexpected close
schedules another reconnect with a constant 1000 ms delay, for as many
closes as occur: the handler reads the stale snapshot 0 of the retry
counter, and each reconnect resets the stored counter, so the 3-attempt
bound is never reached, the backoff never grows, and a fourth, fifth,
... retry is scheduled after the third failure. -/
theorem wsRetry_stale_snapshot_retries_forever (n : Nat) :
    closeDelays n { snap := 0, stateRetryCount := 0 } = List.replicate n 1000 := by
  induction n with
  | zero => rfl
  | succ m ih =>
    have hstep : oncloseUnexpected { snap := 0, stateRetryCount := 0 }
        = some (1000, { snap := 0, stateRetryCount := 0 }) := rfl
    simp [closeDelays, hstep, ih, List.replicate_succ]
